import Mathlib

/-!
Verification of the download-orchestration layer of the video-downloader
backend (src/services/ytDlpService.ts), shallowly embedded in Lean.

Modelling conventions:
  * JavaScript strings are Lean `String`s; `url.includes(pat)` is substring
    containment, embedded structurally on character lists.
  * Optional / possibly-`undefined` JSON fields are `Option` values; JS
    truthiness of a string is "defined and nonempty".
  * Numeric bitrates (`abr`) are embedded as `Int`.
  * `Array.prototype.sort`, stable per the ECMAScript specification (and in
    Node's V8), is embedded as the stable `List.mergeSort`.
  * The POSIX runtime of the shipped Dockerfile is modelled: the
    `process.platform === "win32"` branches are dead, so the ffmpeg location
    is the empty string and the interpreter command is `python`; path joins
    use `/` and the working directory is the implicit current directory.
  * Effects of the outside world (child-process outcomes, `JSON.parse`
    results, directory listings, the generated UUID, the clock) are supplied
    by an explicit environment; the orchestrator is a function of the input
    URL and that environment, and additionally returns the trace of argument
    lists it passes to the extractor invocations.
-/

/-- Whether `pat` occurs as a contiguous sublist of `s` (starting at any suffix). -/
def listContainsSub (s pat : List Char) : Bool :=
  match s with
  | [] => pat.isEmpty
  | _ :: t => pat.isPrefixOf s || listContainsSub t pat

/-- Embedding of JavaScript `s.includes(pat)`: `pat` occurs as a contiguous
substring of `s`. -/
def strIncludes (s pat : String) : Bool :=
  listContainsSub s.toList pat.toList

/-- The `platform` field of a `DownloadResult`: one of instagram, tiktok,
unknown. -/
inductive Platform where
  | instagram
  | tiktok
  | unknown
deriving DecidableEq

/-- Embedding of `detectPlatform` (ytDlpService.ts lines 19-23): TikTok
substring is checked first, then Instagram, else unknown. -/
def detectPlatform (url : String) : Platform :=
  if strIncludes url "tiktok.com" then Platform.tiktok
  else if strIncludes url "instagram.com" then Platform.instagram
  else Platform.unknown

/-- Characters before the first `?`, the whole list if there is none:
the semantics of JavaScript `s.split('?')[0]`. -/
def takeBeforeQuery : List Char → List Char
  | [] => []
  | c :: t => if c = '?' then [] else c :: takeBeforeQuery t

/-- Embedding of `cleanInstagramUrl` (lines 116-122): URLs containing
"instagram.com" are truncated at the first `?` (JS `url.split('?')[0]`);
other URLs pass through. -/
def cleanInstagramUrl (url : String) : String :=
  if strIncludes url "instagram.com" then String.mk (takeBeforeQuery url.toList)
  else url

/-- The user-agent constant `MODERN_UA` (line 81). -/
def MODERN_UA : String :=
  "Mozilla/5.0 (Windows NT 10.0; Win64; x64) AppleWebKit/537.36 (KHTML, like Gecko) Chrome/127.0 Safari/537.36"

/-- Embedding of `getFFmpegLocation` (lines 43-49) on the POSIX runtime:
the win32 branch is dead, so the result is the empty string. -/
def getFFmpegLocation : String := ""

/-- Embedding of `getPythonCommand` (lines 35-41) on the POSIX runtime. -/
def getPythonCommand : String := "python"

/-- The extractor-args value pushed for TikTok URLs (line 91). -/
def tiktokExtractorArgs : String :=
  "tiktok:player_url=1,music_download=1,age_restricted=1,bypass_age_gate=1"

/-- Embedding of `buildCommonArgs` (lines 83-106): base flags, then the
TikTok profile if the URL contains "tiktok.com", then the Instagram profile
if it contains "instagram.com". Note both profiles key on the URL argument
itself, not on a `Platform` value. -/
def buildCommonArgs (url : String) : List String :=
  let base := ["--geo-bypass", "--user-agent", MODERN_UA]
  let base := if getFFmpegLocation ≠ "" then
      base ++ ["--ffmpeg-location", getFFmpegLocation] else base
  let base := if strIncludes url "tiktok.com" then
      base ++ ["--extractor-args", tiktokExtractorArgs,
               "--no-check-certificates", "--ignore-errors"] else base
  let base := if strIncludes url "instagram.com" then
      base ++ ["--referer", "https://www.instagram.com/",
               "--extractor-args", "instagram:api=1",
               "--sleep-requests", "3",
               "--sleep-interval", "3",
               "--no-check-certificates", "--ignore-errors",
               "--extractor-retries", "3"] else base
  base

/-- Outcome of spawning one child process, supplied by the environment:
either the spawn itself errors (the child's `error` event) or the child
runs and exits with a code, having produced stdout and stderr. -/
inductive SpawnOutcome where
  | spawnError (msg : String)
  | exited (code : Int) (stdout stderr : String)
deriving DecidableEq

/-- The two distinct rejection values of `run` (lines 51-70): the spawn
`error` event is forwarded as-is, while a non-zero exit rejects with an
error embedding the exit code, command, arguments and captured stderr. -/
inductive RunError where
  | launchFailure (msg : String)
  | commandFailed (code : Int) (command : String) (args : List String) (stderr : String)
deriving DecidableEq

/-- Embedding of `run` (lines 51-70): resolves with `(stdout, stderr)` on
exit code 0, rejects with a `commandFailed` error on a non-zero exit, and
rejects with the spawn error on a launch failure. -/
def run (command : String) (args : List String) (outcome : SpawnOutcome) :
    Except RunError (String × String) :=
  match outcome with
  | SpawnOutcome.spawnError msg => Except.error (RunError.launchFailure msg)
  | SpawnOutcome.exited code out err =>
      if code = 0 then Except.ok (out, err)
      else Except.error (RunError.commandFailed code command args err)

/-- Embedding of `runYtDlpRaw` (lines 72-79): try `yt-dlp` first; on ANY
rejection (the `catch` does not inspect the error) invoke
`python -m yt_dlp` with the same arguments. `primary` and `fallback` are
the environment-supplied outcomes of the two potential spawns. -/
def runYtDlpRaw (args : List String) (primary fallback : SpawnOutcome) :
    Except RunError (String × String) :=
  match run "yt-dlp" args primary with
  | Except.ok r => Except.ok r
  | Except.error _ => run getPythonCommand (["-m", "yt_dlp"] ++ args) fallback

/-- Embedding of JavaScript `s.startsWith(pre)`. -/
def strStartsWith (s pre : String) : Bool :=
  pre.toList.isPrefixOf s.toList

/-- Embedding of JavaScript `s.endsWith(suf)`. -/
def strEndsWith (s suf : String) : Bool :=
  suf.toList.isSuffixOf s.toList

/-- JavaScript falsiness of a possibly-undefined string: `undefined` and the
empty string are falsy. -/
def jsFalsyStr : Option String → Bool
  | none => true
  | some s => s == ""

/-- One entry of the probe metadata's `thumbnails` array; only its `url`
field is read (line 143). -/
structure ThumbnailEntry where
  url : Option String
deriving DecidableEq

/-- One entry of the probe metadata's `formats` array; the fields read at
lines 150-152. `abr` (average bitrate) is embedded as an `Int`. -/
structure FormatEntry where
  acodec : Option String
  vcodec : Option String
  abr : Option Int
  url : Option String
deriving DecidableEq

/-- A dynamically-typed JSON value as read from the TikTok music-metadata
fields (lines 155-164): a string, an array, or anything else. -/
inductive JRaw where
  | jstr (s : String)
  | jarr (l : List JRaw)
  | jother

/-- The music-like object searched by the TikTok fallback (lines 155-163):
only `playUrl`, `downloadUrl` and `url` are read, each possibly a string,
an array, or absent. -/
structure MusicObj where
  playUrl : Option JRaw
  downloadUrl : Option JRaw
  url : Option JRaw

/-- The fields of the parsed probe metadata that the orchestrator reads
(lines 141-164). -/
structure Metadata where
  title : Option String
  thumbnail : Option String
  thumbnails : Option (List ThumbnailEntry)
  upload_date : Option String
  formats : Option (List FormatEntry)
  music : Option MusicObj
  track : Option MusicObj
  song : Option MusicObj

/-- Derivation of `thumbnailUrl` (lines 142-144): last element of the
`thumbnails` array when that array is present (its `url` field, which is
`undefined` for an empty array), else the singular `thumbnail` field. -/
def thumbnailFromMetadata (metadata : Option Metadata) : Option String :=
  match metadata.bind Metadata.thumbnails with
  | some l => l.getLast?.bind ThumbnailEntry.url
  | none => metadata.bind Metadata.thumbnail

/-- The filter of line 150: `f.acodec && f.vcodec === "none"` — a truthy
(present, nonempty) audio codec and a video codec equal to "none". -/
def audioOnlyKeep (f : FormatEntry) : Bool :=
  (match f.acodec with
   | some s => s != ""
   | none => false) && (f.vcodec == some "none")

/-- The sort key of line 151: `f.abr || 0` (absent bitrate counts as 0). -/
def abrValue (f : FormatEntry) : Int :=
  f.abr.getD 0

/-- The comparator of line 151, `(a, b) => (b.abr || 0) - (a.abr || 0)`,
as the "a sorts no later than b" relation it induces: descending bitrate. -/
def abrGeB (a b : FormatEntry) : Bool :=
  decide (abrValue b ≤ abrValue a)

/-- Derivation of the formats-based `audioUrl` (lines 147-153): keep the
audio-only entries, sort descending by bitrate with the stable sort of the
JS runtime (embedded as the stable `List.mergeSort`), and take the first
entry's `url`. -/
def formatsAudioUrl (metadata : Option Metadata) : Option String :=
  match metadata.bind Metadata.formats with
  | none => none
  | some fs =>
    match (fs.filter audioOnlyKeep).mergeSort abrGeB with
    | [] => none
    | f :: _ => f.url

/-- The `music.playUrl[0]`-style candidates (lines 160-162): the first element
when the value is an array, else `undefined`. -/
def jrawHeadIfArr : Option JRaw → Option JRaw
  | some (JRaw.jarr l) => l.head?
  | _ => none

/-- The find predicate of line 164: `typeof u === "string" && u.startsWith("http")`. -/
def isHttpString : Option JRaw → Bool
  | some (JRaw.jstr s) => strStartsWith s "http"
  | _ => false

/-- Extract the string from a candidate known to be a string value. -/
def jrawString : Option JRaw → Option String
  | some (JRaw.jstr s) => some s
  | _ => none

/-- The TikTok music fallback (lines 154-165): first truthy of
`metadata?.music || metadata?.track || metadata?.song`, then the first of
six candidate fields that is a string starting with "http". -/
def musicFallbackUrl (metadata : Option Metadata) : Option String :=
  let music := (metadata.bind Metadata.music) <|> (metadata.bind Metadata.track)
      <|> (metadata.bind Metadata.song)
  let playUrl := music.bind MusicObj.playUrl
  let downloadUrl := music.bind MusicObj.downloadUrl
  let musicUrl := music.bind MusicObj.url
  let candidates : List (Option JRaw) :=
    [playUrl, downloadUrl, musicUrl,
     jrawHeadIfArr playUrl, jrawHeadIfArr downloadUrl, jrawHeadIfArr musicUrl]
  (candidates.find? isHttpString).bind jrawString

/-- Outcome of the probe step as supplied by the environment: either the
extractor invocation rejected (with an error message), or it resolved and
`JSON.parse` of its stdout is embedded by its result — `none` when the
stdout is not parseable JSON (the `catch` of line 139). -/
inductive ProbeOutcome where
  | fail (msg : String)
  | ok (parsed : Option Metadata)

/-- The outside world of one orchestration run: the generated UUID, the
outcome of each extractor invocation, the directory listings observed by
the two filesystem scans, and the clock reading used for `createdAt`. -/
structure Env where
  id : String
  probe : ProbeOutcome
  videoFetch : Except String Unit
  downloadsDir : List String
  audioExtract : Except String Unit
  audiosDir : List String
  now : String

/-- The assembled result record (lines 5-17 and 192-204). Optional fields
are `Option`; paths are relative POSIX paths. -/
structure DownloadResult where
  id : String
  platform : Platform
  inputUrl : String
  videoPath : String
  filename : String
  thumbnailUrl : Option String
  audioUrl : Option String
  audioPath : Option String
  title : Option String
  publishedAt : Option String
  createdAt : String
deriving DecidableEq

/-- The full argument list reaching the extractor for the probe step
(lines 132-136): common args for the cleaned URL, then `-J --no-playlist <url>`. -/
def probeStepArgs (cleanUrl : String) : List String :=
  buildCommonArgs cleanUrl ++ ["-J", "--no-playlist", cleanUrl]

/-- The video output template of line 130 (POSIX-relative). -/
def outputTemplate (id : String) : String :=
  "downloads/" ++ id ++ "-%(title)s.%(ext)s"

/-- The audio output template of line 181 (POSIX-relative). -/
def audioTemplate (id : String) : String :=
  "audios/" ++ id ++ "-audio.%(ext)s"

/-- The full argument list reaching the extractor for the video-fetch step
(lines 167-172). -/
def videoStepArgs (cleanUrl id : String) : List String :=
  buildCommonArgs cleanUrl ++
    ["-f", "bv*+ba/best", "--remux-video", "mp4", "-o", outputTemplate id, cleanUrl]

/-- The full argument list reaching the extractor for the audio-extraction
step (lines 182-188). -/
def audioStepArgs (cleanUrl id : String) : List String :=
  buildCommonArgs cleanUrl ++
    ["-x", "--audio-format", "mp3", "--audio-quality", "0", "-o", audioTemplate id, cleanUrl]

/-- Outcome of one orchestration run: the settled promise of
`downloadVideoAndExtractAudio` (result record or thrown error message),
together with the trace of argument lists passed to the extractor, in
order of invocation. -/
structure OrchestrationRun where
  result : Except String DownloadResult
  invocations : List (List String)

/-- Embedding of `downloadVideoAndExtractAudio` (lines 124-205), as a
function of the input URL and the environment of external outcomes. -/
def downloadVideoAndExtractAudio (url : String) (env : Env) : OrchestrationRun :=
  let id := env.id
  let platform := detectPlatform url
  let cleanUrl := cleanInstagramUrl url
  let probeInv := probeStepArgs cleanUrl
  match env.probe with
  | ProbeOutcome.fail msg => ⟨Except.error msg, [probeInv]⟩
  | ProbeOutcome.ok metadata =>
    let title := metadata.bind Metadata.title
    let thumbnailUrl := thumbnailFromMetadata metadata
    let publishedAt := metadata.bind Metadata.upload_date
    let audioUrlFromFormats := formatsAudioUrl metadata
    let audioUrl :=
      if jsFalsyStr audioUrlFromFormats ∧ platform = Platform.tiktok then
        musicFallbackUrl metadata
      else audioUrlFromFormats
    let videoInv := videoStepArgs cleanUrl id
    match env.videoFetch with
    | Except.error msg => ⟨Except.error msg, [probeInv, videoInv]⟩
    | Except.ok _ =>
      match env.downloadsDir.filter (fun f => strStartsWith f (id ++ "-")) with
      | [] => ⟨Except.error "Downloaded file not found", [probeInv, videoInv]⟩
      | filename :: _ =>
        let videoPath := "downloads/" ++ filename
        let audioInv := audioStepArgs cleanUrl id
        match env.audioExtract with
        | Except.error msg => ⟨Except.error msg, [probeInv, videoInv, audioInv]⟩
        | Except.ok _ =>
          let audioFile := env.audiosDir.find?
            (fun f => strStartsWith f (id ++ "-audio") && strEndsWith f ".mp3")
          let audioPath := audioFile.map (fun f => "audios/" ++ f)
          ⟨Except.ok
            { id := id
              platform := platform
              inputUrl := url
              videoPath := videoPath
              filename := filename
              thumbnailUrl := thumbnailUrl
              audioUrl := audioUrl
              audioPath := audioPath
              title := title
              publishedAt := publishedAt
              createdAt := env.now },
            [probeInv, videoInv, audioInv]⟩

/-- The first entry of a formats list attaining the maximal `abr || 0`
value: on ties the earlier entry is kept. This is the element a stable
descending sort brings to the front. -/
def firstMaxByAbr : List FormatEntry → Option FormatEntry
  | [] => none
  | f :: fs =>
    match firstMaxByAbr fs with
    | none => some f
    | some g => if abrValue f < abrValue g then some g else some f

/-- Witness environment: probe succeeds but its stdout is not JSON, video
fetch succeeds, yet no file in the downloads directory carries the id. -/
def envC1 : Env :=
  { id := "w1"
    probe := ProbeOutcome.ok none
    videoFetch := Except.ok ()
    downloadsDir := ["unrelated.mp4", "other-w1.mp4"]
    audioExtract := Except.ok ()
    audiosDir := []
    now := "2026-01-01T00:00:00.000Z" }

/-- Witness environment: all steps succeed and a video file carries the id,
but no filename in the audios directory matches "<id>-audio*.mp3". -/
def envC2 : Env :=
  { id := "w2"
    probe := ProbeOutcome.ok none
    videoFetch := Except.ok ()
    downloadsDir := ["w2-clip.mp4"]
    audioExtract := Except.ok ()
    audiosDir := ["w2-audio.m4a", "other-audio.mp3"]
    now := "2026-01-01T00:00:01.000Z" }

/-- Witness environment: the probe resolves with unparseable stdout and
every later step succeeds. -/
def envC3 : Env :=
  { id := "w3"
    probe := ProbeOutcome.ok none
    videoFetch := Except.ok ()
    downloadsDir := ["w3-clip.mp4"]
    audioExtract := Except.ok ()
    audiosDir := ["w3-audio.mp3"]
    now := "2026-01-01T00:00:02.000Z" }

/-- Witness metadata: three audio-only format entries with bitrates
64, 128 and 96. -/
def fmt64 : FormatEntry :=
  { acodec := some "mp4a.40.2", vcodec := some "none", abr := some 64,
    url := some "https://cdn.example/a64" }

def fmt128 : FormatEntry :=
  { acodec := some "mp4a.40.2", vcodec := some "none", abr := some 128,
    url := some "https://cdn.example/a128" }

def fmt96 : FormatEntry :=
  { acodec := some "mp4a.40.2", vcodec := some "none", abr := some 96,
    url := some "https://cdn.example/a96" }

def mC5 : Metadata :=
  { title := none, thumbnail := none, thumbnails := none, upload_date := none,
    formats := some [fmt64, fmt128, fmt96], music := none, track := none, song := none }

/-- Witness metadata: a three-element thumbnails list next to a singular
thumbnail field. -/
def mC6 : Metadata :=
  { title := some "clip six", thumbnail := some "https://img.example/single.jpg",
    thumbnails := some [⟨some "https://img.example/1.jpg"⟩,
                        ⟨some "https://img.example/2.jpg"⟩,
                        ⟨some "https://img.example/3.jpg"⟩],
    upload_date := none, formats := none, music := none, track := none, song := none }

def envC6 : Env :=
  { id := "w6"
    probe := ProbeOutcome.ok (some mC6)
    videoFetch := Except.ok ()
    downloadsDir := ["w6-v.mp4"]
    audioExtract := Except.ok ()
    audiosDir := []
    now := "2026-01-01T00:00:06.000Z" }

/-- Witness input: an Instagram URL whose query string would be stripped
before reaching the extractor. -/
def uC8 : String := "https://www.instagram.com/p/abc?utm_source=share"

def envC8 : Env :=
  { id := "w8"
    probe := ProbeOutcome.ok none
    videoFetch := Except.ok ()
    downloadsDir := ["w8-reel.mp4"]
    audioExtract := Except.ok ()
    audiosDir := ["w8-audio.mp3"]
    now := "2026-01-01T00:00:08.000Z" }

/-- The record assembled by the run of `uC8` against `envC8`. -/
def rC8 : DownloadResult :=
  { id := "w8", platform := Platform.instagram, inputUrl := uC8,
    videoPath := "downloads/w8-reel.mp4", filename := "w8-reel.mp4",
    thumbnailUrl := none, audioUrl := none,
    audioPath := some "audios/w8-audio.mp3", title := none, publishedAt := none,
    createdAt := "2026-01-01T00:00:08.000Z" }

/-- Counterexample input: an Instagram URL carrying "tiktok.com" inside its
query string; `detectPlatform` sees tiktok, while argument construction
works on the cleaned URL that no longer contains "tiktok.com". -/
def uC9 : String := "https://www.instagram.com/p/abc?ref=tiktok.com"

def envC9 : Env :=
  { id := "w9"
    probe := ProbeOutcome.ok none
    videoFetch := Except.ok ()
    downloadsDir := ["w9-v.mp4"]
    audioExtract := Except.ok ()
    audiosDir := []
    now := "2026-01-01T00:00:09.000Z" }

/-- The record assembled by the run of `uC9` against `envC9`: its platform
field is tiktok even though every extractor invocation used the Instagram
argument profile. -/
def rC9 : DownloadResult :=
  { id := "w9", platform := Platform.tiktok, inputUrl := uC9,
    videoPath := "downloads/w9-v.mp4", filename := "w9-v.mp4",
    thumbnailUrl := none, audioUrl := none, audioPath := none,
    title := none, publishedAt := none,
    createdAt := "2026-01-01T00:00:09.000Z" }

example : detectPlatform "https://www.tiktok.com/@user/video/123" = Platform.tiktok := by decide
example : detectPlatform "https://www.instagram.com/p/abc" = Platform.instagram := by decide
example : detectPlatform "https://example.com/x" = Platform.unknown := by decide
example : detectPlatform "https://www.instagram.com/p/abc?ref=tiktok.com" = Platform.tiktok := by decide
example : cleanInstagramUrl "https://www.instagram.com/p/abc?utm=1" = "https://www.instagram.com/p/abc" := by decide
example : cleanInstagramUrl "https://www.tiktok.com/v?x=1" = "https://www.tiktok.com/v?x=1" := by decide

/-- Shape of a run whose probe invocation rejects: the error propagates and
only the probe invocation was issued. -/
theorem run_probe_fail_shape (url : String) (env : Env) (msg : String)
    (hp : env.probe = ProbeOutcome.fail msg) :
    downloadVideoAndExtractAudio url env
      = ⟨Except.error msg, [probeStepArgs (cleanInstagramUrl url)]⟩ := by
  simp [downloadVideoAndExtractAudio, hp]

/-- Shape of a run whose video-fetch invocation rejects: the error
propagates after the probe and video invocations. -/
theorem run_video_error_shape (url : String) (env : Env) (m : Option Metadata) (msg : String)
    (hp : env.probe = ProbeOutcome.ok m)
    (hv : env.videoFetch = Except.error msg) :
    downloadVideoAndExtractAudio url env
      = ⟨Except.error msg,
         [probeStepArgs (cleanInstagramUrl url),
          videoStepArgs (cleanInstagramUrl url) env.id]⟩ := by
  simp [downloadVideoAndExtractAudio, hp, hv]

/-- Shape of a run in which the downloads-directory scan finds no file
with the "<id>-" start: the dedicated error is thrown. -/
theorem run_no_file_shape (url : String) (env : Env) (m : Option Metadata)
    (hp : env.probe = ProbeOutcome.ok m)
    (hv : env.videoFetch = Except.ok ())
    (hfl : env.downloadsDir.filter (fun f => strStartsWith f (env.id ++ "-")) = []) :
    downloadVideoAndExtractAudio url env
      = ⟨Except.error "Downloaded file not found",
         [probeStepArgs (cleanInstagramUrl url),
          videoStepArgs (cleanInstagramUrl url) env.id]⟩ := by
  simp [downloadVideoAndExtractAudio, hp, hv, hfl]

/-- Shape of a run whose audio-extraction invocation rejects: the error
propagates after all three invocations. -/
theorem run_audio_error_shape (url : String) (env : Env) (m : Option Metadata)
    (fn : String) (rest : List String) (msg : String)
    (hp : env.probe = ProbeOutcome.ok m)
    (hv : env.videoFetch = Except.ok ())
    (hfl : env.downloadsDir.filter (fun f => strStartsWith f (env.id ++ "-")) = fn :: rest)
    (hae : env.audioExtract = Except.error msg) :
    downloadVideoAndExtractAudio url env
      = ⟨Except.error msg,
         [probeStepArgs (cleanInstagramUrl url),
          videoStepArgs (cleanInstagramUrl url) env.id,
          audioStepArgs (cleanInstagramUrl url) env.id]⟩ := by
  simp [downloadVideoAndExtractAudio, hp, hv, hfl, hae]

/-- Shape of a fully successful run: the assembled record and the three
invocations. -/
theorem run_success_shape (url : String) (env : Env) (m : Option Metadata)
    (fn : String) (rest : List String)
    (hp : env.probe = ProbeOutcome.ok m)
    (hv : env.videoFetch = Except.ok ())
    (hfl : env.downloadsDir.filter (fun f => strStartsWith f (env.id ++ "-")) = fn :: rest)
    (hae : env.audioExtract = Except.ok ()) :
    downloadVideoAndExtractAudio url env
      = ⟨Except.ok
          { id := env.id
            platform := detectPlatform url
            inputUrl := url
            videoPath := "downloads/" ++ fn
            filename := fn
            thumbnailUrl := thumbnailFromMetadata m
            audioUrl :=
              if jsFalsyStr (formatsAudioUrl m) ∧ detectPlatform url = Platform.tiktok
              then musicFallbackUrl m else formatsAudioUrl m
            audioPath :=
              (env.audiosDir.find?
                (fun f => strStartsWith f (env.id ++ "-audio") && strEndsWith f ".mp3")).map
                  (fun f => "audios/" ++ f)
            title := m.bind Metadata.title
            publishedAt := m.bind Metadata.upload_date
            createdAt := env.now },
         [probeStepArgs (cleanInstagramUrl url),
          videoStepArgs (cleanInstagramUrl url) env.id,
          audioStepArgs (cleanInstagramUrl url) env.id]⟩ := by
  simp [downloadVideoAndExtractAudio, hp, hv, hfl, hae]

/-- C10: platform detection checks the TikTok substring before the
Instagram substring: every URL string containing both "tiktok.com" and
"instagram.com" is classified tiktok, not instagram. -/
theorem C10_tiktok_checked_first (url : String)
    (ht : strIncludes url "tiktok.com" = true)
    (_hi : strIncludes url "instagram.com" = true) :
    detectPlatform url = Platform.tiktok := by
  simp [detectPlatform, ht]

theorem C10_tiktok_checked_first_witness :
    strIncludes "https://www.instagram.com/reel/x?from=tiktok.com" "tiktok.com" = true ∧
    strIncludes "https://www.instagram.com/reel/x?from=tiktok.com" "instagram.com" = true ∧
    detectPlatform "https://www.instagram.com/reel/x?from=tiktok.com" = Platform.tiktok :=
  ⟨by decide, by decide, C10_tiktok_checked_first _ (by decide) (by decide)⟩

/-- C4 counterexample: this URL contains "instagram.com", yet the code
classifies it tiktok (the TikTok check fires first), so the claim's
"every URL containing instagram.com yields instagram" fails on the code. -/
theorem C4_counterexample :
    strIncludes "https://www.instagram.com/p/a?igshid=tiktok.com" "instagram.com" = true ∧
    detectPlatform "https://www.instagram.com/p/a?igshid=tiktok.com" ≠ Platform.instagram :=
  ⟨by decide, by decide⟩

/-- C4 (amended): platform classification is a pure function of the URL
string: a URL containing "tiktok.com" yields tiktok; a URL containing
"instagram.com" and not containing "tiktok.com" yields instagram; a URL
containing neither yields unknown. -/
theorem C4_platform_classification (url : String) :
    (strIncludes url "tiktok.com" = true → detectPlatform url = Platform.tiktok) ∧
    (strIncludes url "tiktok.com" = false → strIncludes url "instagram.com" = true →
      detectPlatform url = Platform.instagram) ∧
    (strIncludes url "tiktok.com" = false → strIncludes url "instagram.com" = false →
      detectPlatform url = Platform.unknown) := by
  refine ⟨fun ht => by simp [detectPlatform, ht],
          fun ht hi => by simp [detectPlatform, ht, hi],
          fun ht hi => by simp [detectPlatform, ht, hi]⟩

theorem C4_platform_classification_witness :
    detectPlatform "https://www.tiktok.com/@user/video/9" = Platform.tiktok ∧
    detectPlatform "https://www.instagram.com/p/xyz" = Platform.instagram ∧
    detectPlatform "https://vimeo.com/123" = Platform.unknown :=
  ⟨(C4_platform_classification _).1 (by decide),
   (C4_platform_classification _).2.1 (by decide) (by decide),
   (C4_platform_classification _).2.2 (by decide) (by decide)⟩

/-- C1: when the probe step resolved (parseable or not) and the video-fetch
step resolved, but no filename in the downloads directory starts with
"<id>-", the orchestrator throws "Downloaded file not found" and the run
produces no result record. -/
theorem C1_missing_video_file_fatal (url : String) (env : Env) (m : Option Metadata)
    (hp : env.probe = ProbeOutcome.ok m)
    (hv : env.videoFetch = Except.ok ())
    (hf : ∀ f ∈ env.downloadsDir, strStartsWith f (env.id ++ "-") = false) :
    (downloadVideoAndExtractAudio url env).result
      = Except.error "Downloaded file not found" := by
  have hfilter : env.downloadsDir.filter (fun f => strStartsWith f (env.id ++ "-")) = [] := by
    rw [List.filter_eq_nil_iff]
    intro a ha
    simp [hf a ha]
  simp [downloadVideoAndExtractAudio, hp, hv, hfilter]

theorem C1_missing_video_file_fatal_witness :
    (downloadVideoAndExtractAudio "https://www.tiktok.com/@u/video/1" envC1).result
      = Except.error "Downloaded file not found" :=
  C1_missing_video_file_fatal _ envC1 none rfl rfl (by decide)

/-- C2: when the probe and video steps resolved, a video file carrying the
id exists, and the audio-extraction invocation resolved, but no filename in
the audios directory both starts with "<id>-audio" and ends with ".mp3",
the orchestrator still returns a successful result whose `audioPath` is
unset. -/
theorem C2_missing_audio_file_soft (url : String) (env : Env) (m : Option Metadata)
    (hp : env.probe = ProbeOutcome.ok m)
    (hv : env.videoFetch = Except.ok ())
    (hd : env.downloadsDir.filter (fun f => strStartsWith f (env.id ++ "-")) ≠ [])
    (hae : env.audioExtract = Except.ok ())
    (hn : ∀ f ∈ env.audiosDir,
        (strStartsWith f (env.id ++ "-audio") && strEndsWith f ".mp3") = false) :
    ∃ r, (downloadVideoAndExtractAudio url env).result = Except.ok r ∧
      r.audioPath = none := by
  obtain ⟨fn, rest, hfl⟩ := List.exists_cons_of_ne_nil hd
  have hfind : env.audiosDir.find?
      (fun f => strStartsWith f (env.id ++ "-audio") && strEndsWith f ".mp3") = none := by
    rw [List.find?_eq_none]
    intro x hx
    simp [hn x hx]
  rw [run_success_shape url env m fn rest hp hv hfl hae]
  exact ⟨_, rfl, by simp [hfind]⟩

theorem C2_missing_audio_file_soft_witness :
    ∃ r, (downloadVideoAndExtractAudio "https://www.instagram.com/reel/w2" envC2).result
        = Except.ok r ∧ r.audioPath = none :=
  C2_missing_audio_file_soft _ envC2 none rfl rfl (by decide) rfl (by decide)

/-- C3: when the probe invocation resolves but its stdout is not parseable
JSON, the run does not abort: the video-fetch invocation is still issued,
and if the remaining steps succeed the run returns a successful result in
which every metadata-derived field (title, thumbnailUrl, publishedAt,
audioUrl) is unset. -/
theorem C3_unparseable_probe_nonfatal (url : String) (env : Env)
    (hp : env.probe = ProbeOutcome.ok none) :
    2 ≤ (downloadVideoAndExtractAudio url env).invocations.length ∧
    (env.videoFetch = Except.ok () →
     env.downloadsDir.filter (fun f => strStartsWith f (env.id ++ "-")) ≠ [] →
     env.audioExtract = Except.ok () →
     ∃ r, (downloadVideoAndExtractAudio url env).result = Except.ok r ∧
       r.title = none ∧ r.thumbnailUrl = none ∧ r.publishedAt = none ∧
       r.audioUrl = none) := by
  constructor
  · cases hv : env.videoFetch with
    | error msg => rw [run_video_error_shape url env none msg hp hv]; simp
    | ok u =>
      cases u
      cases hfl : env.downloadsDir.filter (fun f => strStartsWith f (env.id ++ "-")) with
      | nil => rw [run_no_file_shape url env none hp hv hfl]; simp
      | cons fn rest =>
        cases hae : env.audioExtract with
        | error msg => rw [run_audio_error_shape url env none fn rest msg hp hv hfl hae]; simp
        | ok u2 => cases u2; rw [run_success_shape url env none fn rest hp hv hfl hae]; simp
  · intro hv hd hae
    obtain ⟨fn, rest, hfl⟩ := List.exists_cons_of_ne_nil hd
    rw [run_success_shape url env none fn rest hp hv hfl hae]
    refine ⟨_, rfl, rfl, rfl, rfl, ?_⟩
    show (if jsFalsyStr (formatsAudioUrl none) ∧ detectPlatform url = Platform.tiktok
          then musicFallbackUrl none else formatsAudioUrl none) = none
    have h1 : musicFallbackUrl none = none := rfl
    have h2 : formatsAudioUrl none = none := rfl
    rw [h1, h2, ite_self]

theorem C3_unparseable_probe_nonfatal_witness :
    2 ≤ (downloadVideoAndExtractAudio "https://www.tiktok.com/@u/video/3" envC3).invocations.length ∧
    (∃ r, (downloadVideoAndExtractAudio "https://www.tiktok.com/@u/video/3" envC3).result
        = Except.ok r ∧
      r.title = none ∧ r.thumbnailUrl = none ∧ r.publishedAt = none ∧ r.audioUrl = none) :=
  ⟨(C3_unparseable_probe_nonfatal _ envC3 rfl).1,
   (C3_unparseable_probe_nonfatal _ envC3 rfl).2 rfl (by decide) rfl⟩

/-- C6: in a successful run, when the parsed metadata carries a thumbnails
list, the result's `thumbnailUrl` is the URL of that list's last element;
when it carries no thumbnails list, `thumbnailUrl` is the metadata's
singular `thumbnail` field. -/
theorem C6_thumbnail_selection (url : String) (env : Env) (m : Metadata)
    (hp : env.probe = ProbeOutcome.ok (some m))
    (hv : env.videoFetch = Except.ok ())
    (hd : env.downloadsDir.filter (fun f => strStartsWith f (env.id ++ "-")) ≠ [])
    (hae : env.audioExtract = Except.ok ()) :
    (∀ l t, m.thumbnails = some (l ++ [t]) →
      ∃ r, (downloadVideoAndExtractAudio url env).result = Except.ok r ∧
        r.thumbnailUrl = t.url) ∧
    (m.thumbnails = none →
      ∃ r, (downloadVideoAndExtractAudio url env).result = Except.ok r ∧
        r.thumbnailUrl = m.thumbnail) := by
  obtain ⟨fn, rest, hfl⟩ := List.exists_cons_of_ne_nil hd
  rw [run_success_shape url env (some m) fn rest hp hv hfl hae]
  constructor
  · intro l t hth
    refine ⟨_, rfl, ?_⟩
    show thumbnailFromMetadata (some m) = t.url
    simp [thumbnailFromMetadata, hth, List.getLast?_concat]
  · intro hth
    refine ⟨_, rfl, ?_⟩
    show thumbnailFromMetadata (some m) = m.thumbnail
    simp [thumbnailFromMetadata, hth]

theorem C6_thumbnail_selection_witness :
    ∃ r, (downloadVideoAndExtractAudio "https://www.instagram.com/p/w6" envC6).result
        = Except.ok r ∧
      r.thumbnailUrl = (⟨some "https://img.example/3.jpg"⟩ : ThumbnailEntry).url :=
  (C6_thumbnail_selection _ envC6 mC6 rfl rfl (by decide) rfl).1
    [⟨some "https://img.example/1.jpg"⟩, ⟨some "https://img.example/2.jpg"⟩]
    ⟨some "https://img.example/3.jpg"⟩ rfl

/-- C7 counterexample: the primary extractor executable launches and exits
non-zero (code 1) — reported as a `commandFailed` error, not a launch
failure — yet the interpreter-module fallback still runs and its success
is returned. The claim that a non-zero exit does not trigger the module
fallback fails on the code. -/
theorem C7_counterexample :
    run "yt-dlp" ["-J", "https://u"] (SpawnOutcome.exited 1 "" "boom")
      = Except.error (RunError.commandFailed 1 "yt-dlp" ["-J", "https://u"] "boom") ∧
    runYtDlpRaw ["-J", "https://u"] (SpawnOutcome.exited 1 "" "boom")
        (SpawnOutcome.exited 0 "module-stdout" "")
      = Except.ok ("module-stdout", "") :=
  ⟨rfl, rfl⟩

/-- C7 (amended): the Extractor Invoker tries the standalone executable
first and falls back to the interpreter-module invocation whenever the
primary invocation fails for ANY reason — a launch failure and a non-zero
exit both trigger the fallback. The Process Runner does keep the two
failure kinds distinct as error values (spawn error versus embedded exit
code), but the fallback decision does not distinguish them. -/
theorem C7_fallback_on_any_primary_failure (args : List String)
    (p fb : SpawnOutcome) (c : String) (a : List String) (msg : String)
    (code : Int) (out err : String) :
    (p = SpawnOutcome.exited 0 out err → runYtDlpRaw args p fb = Except.ok (out, err)) ∧
    ((∃ e, run "yt-dlp" args p = Except.error e) →
      runYtDlpRaw args p fb = run getPythonCommand (["-m", "yt_dlp"] ++ args) fb) ∧
    (run c a (SpawnOutcome.spawnError msg) = Except.error (RunError.launchFailure msg)) ∧
    (code ≠ 0 → run c a (SpawnOutcome.exited code out err)
      = Except.error (RunError.commandFailed code c a err)) ∧
    RunError.launchFailure msg ≠ RunError.commandFailed code c a err := by
  refine ⟨?_, ?_, rfl, ?_, by simp⟩
  · intro hp
    subst hp
    rfl
  · rintro ⟨e, he⟩
    simp [runYtDlpRaw, he]
  · intro hc
    simp [run, hc]

theorem C7_fallback_witness :
    runYtDlpRaw ["-x"] (SpawnOutcome.exited 0 "ok-out" "w") (SpawnOutcome.spawnError "unused")
      = Except.ok ("ok-out", "w") ∧
    runYtDlpRaw ["-x"] (SpawnOutcome.spawnError "ENOENT") (SpawnOutcome.exited 0 "mod" "")
      = run getPythonCommand (["-m", "yt_dlp"] ++ ["-x"]) (SpawnOutcome.exited 0 "mod" "") ∧
    run "yt-dlp" ["-x"] (SpawnOutcome.spawnError "ENOENT")
      = Except.error (RunError.launchFailure "ENOENT") ∧
    run "yt-dlp" ["-x"] (SpawnOutcome.exited 2 "" "err2")
      = Except.error (RunError.commandFailed 2 "yt-dlp" ["-x"] "err2") ∧
    RunError.launchFailure "ENOENT" ≠ RunError.commandFailed 2 "yt-dlp" ["-x"] "err2" :=
  ⟨(C7_fallback_on_any_primary_failure ["-x"] (SpawnOutcome.exited 0 "ok-out" "w")
      (SpawnOutcome.spawnError "unused") "c" [] "m" 1 "ok-out" "w").1 rfl,
   (C7_fallback_on_any_primary_failure ["-x"] (SpawnOutcome.spawnError "ENOENT")
      (SpawnOutcome.exited 0 "mod" "") "c" [] "m" 1 "" "").2.1
      ⟨RunError.launchFailure "ENOENT", rfl⟩,
   (C7_fallback_on_any_primary_failure [] (SpawnOutcome.exited 0 "" "")
      (SpawnOutcome.exited 0 "" "") "yt-dlp" ["-x"] "ENOENT" 2 "" "err2").2.2.1,
   (C7_fallback_on_any_primary_failure [] (SpawnOutcome.exited 0 "" "")
      (SpawnOutcome.exited 0 "" "") "yt-dlp" ["-x"] "ENOENT" 2 "" "err2").2.2.2.1
      (by decide),
   (C7_fallback_on_any_primary_failure [] (SpawnOutcome.exited 0 "" "")
      (SpawnOutcome.exited 0 "" "") "yt-dlp" ["-x"] "ENOENT" 2 "" "err2").2.2.2.2⟩

/-- Every argument list the orchestrator passes to the extractor is one of
the three step argument lists, always built from the cleaned URL. -/
theorem invocations_cases (url : String) (env : Env) :
    ∀ t ∈ (downloadVideoAndExtractAudio url env).invocations,
      t = probeStepArgs (cleanInstagramUrl url) ∨
      t = videoStepArgs (cleanInstagramUrl url) env.id ∨
      t = audioStepArgs (cleanInstagramUrl url) env.id := by
  intro t ht
  simp only [downloadVideoAndExtractAudio] at ht
  repeat' split at ht
  all_goals simp_all
  all_goals tauto

/-- Any successfully returned record carries the submitted URL verbatim and
the platform classification of that original URL. -/
theorem result_fields_of_ok (url : String) (env : Env) (r : DownloadResult)
    (h : (downloadVideoAndExtractAudio url env).result = Except.ok r) :
    r.inputUrl = url ∧ r.platform = detectPlatform url := by
  simp only [downloadVideoAndExtractAudio] at h
  repeat' split at h
  all_goals simp_all
  all_goals (cases h; simp)

/-- The probe argument list ends with the (cleaned) target URL. -/
theorem probeStepArgs_getLast (c : String) :
    (probeStepArgs c).getLast? = some c := by
  simp [probeStepArgs]

/-- The video-fetch argument list ends with the (cleaned) target URL. -/
theorem videoStepArgs_getLast (c i : String) :
    (videoStepArgs c i).getLast? = some c := by
  simp [videoStepArgs]

/-- The audio-extraction argument list ends with the (cleaned) target URL. -/
theorem audioStepArgs_getLast (c i : String) :
    (audioStepArgs c i).getLast? = some c := by
  simp [audioStepArgs]

/-- C8: the URL actually handed to every extractor invocation is the
cleaned URL (the original truncated at the first "?" when it is an
Instagram URL), while any successfully returned record reports the
original URL verbatim in `inputUrl`. -/
theorem C8_inputUrl_verbatim (url : String) (env : Env) :
    (∀ t ∈ (downloadVideoAndExtractAudio url env).invocations,
      t.getLast? = some (cleanInstagramUrl url)) ∧
    (∀ r, (downloadVideoAndExtractAudio url env).result = Except.ok r →
      r.inputUrl = url) := by
  constructor
  · intro t ht
    rcases invocations_cases url env t ht with h | h | h
    · rw [h, probeStepArgs_getLast]
    · rw [h, videoStepArgs_getLast]
    · rw [h, audioStepArgs_getLast]
  · intro r hr
    exact (result_fields_of_ok url env r hr).1

theorem C8_inputUrl_verbatim_witness :
    (probeStepArgs (cleanInstagramUrl uC8)).getLast? = some (cleanInstagramUrl uC8) ∧
    rC8.inputUrl = uC8 ∧
    cleanInstagramUrl uC8 ≠ uC8 :=
  ⟨(C8_inputUrl_verbatim uC8 envC8).1 (probeStepArgs (cleanInstagramUrl uC8)) (by decide),
   (C8_inputUrl_verbatim uC8 envC8).2 rC8 rfl,
   by decide⟩

/-- C9 counterexample: for `uC9` (an Instagram post URL with "tiktok.com"
in a query parameter) the once-computed classification is tiktok — and the
returned record says so — yet every extractor invocation of the same run
was built with the Instagram argument profile and without the TikTok
extractor-args, because argument construction re-derives the platform from
substring checks on the cleaned URL. -/
theorem C9_counterexample :
    detectPlatform uC9 = Platform.tiktok ∧
    (downloadVideoAndExtractAudio uC9 envC9).result = Except.ok rC9 ∧
    rC9.platform = Platform.tiktok ∧
    "--referer" ∈ (downloadVideoAndExtractAudio uC9 envC9).invocations.headD [] ∧
    tiktokExtractorArgs ∉ (downloadVideoAndExtractAudio uC9 envC9).invocations.headD [] :=
  ⟨by decide, rfl, rfl, by decide, by decide⟩

/-- The TikTok extractor-args flag appears in the constructed argument set
exactly when the URL argument contains "tiktok.com". -/
theorem tiktokArgs_mem_buildCommonArgs (u : String) :
    tiktokExtractorArgs ∈ buildCommonArgs u ↔ strIncludes u "tiktok.com" = true := by
  cases ht : strIncludes u "tiktok.com" <;> cases hi : strIncludes u "instagram.com" <;>
    simp [buildCommonArgs, ht, hi, getFFmpegLocation, tiktokExtractorArgs, MODERN_UA]

/-- The Instagram referer flag appears in the constructed argument set
exactly when the URL argument contains "instagram.com". -/
theorem referer_mem_buildCommonArgs (u : String) :
    "--referer" ∈ buildCommonArgs u ↔ strIncludes u "instagram.com" = true := by
  cases ht : strIncludes u "tiktok.com" <;> cases hi : strIncludes u "instagram.com" <;>
    simp [buildCommonArgs, ht, hi, getFFmpegLocation, tiktokExtractorArgs, MODERN_UA]

/-- C9 (amended): the platform classification is computed once from the
original URL and reused for the result record and the music fallback, but
argument construction independently re-derives platform membership from
substring checks on the cleaned URL. For URLs in which cleaning does not
change which platform substrings occur and at most one platform substring
occurs, every argument-construction branch agrees with the single
classification; outside that class they can disagree. -/
theorem C9_platform_reuse_amended (url : String) (env : Env)
    (ht : strIncludes (cleanInstagramUrl url) "tiktok.com" = strIncludes url "tiktok.com")
    (hi : strIncludes (cleanInstagramUrl url) "instagram.com"
        = strIncludes url "instagram.com")
    (hx : ¬(strIncludes url "tiktok.com" = true ∧ strIncludes url "instagram.com" = true)) :
    ((tiktokExtractorArgs ∈ buildCommonArgs (cleanInstagramUrl url)) ↔
      detectPlatform url = Platform.tiktok) ∧
    (("--referer" ∈ buildCommonArgs (cleanInstagramUrl url)) ↔
      detectPlatform url = Platform.instagram) ∧
    (∀ r, (downloadVideoAndExtractAudio url env).result = Except.ok r →
      r.platform = detectPlatform url) := by
  refine ⟨?_, ?_, fun r hr => (result_fields_of_ok url env r hr).2⟩
  · rw [tiktokArgs_mem_buildCommonArgs, ht]
    cases hT : strIncludes url "tiktok.com" <;> cases hI : strIncludes url "instagram.com" <;>
      simp_all [detectPlatform]
  · rw [referer_mem_buildCommonArgs, hi]
    cases hT : strIncludes url "tiktok.com" <;> cases hI : strIncludes url "instagram.com" <;>
      simp_all [detectPlatform]

theorem C9_platform_reuse_amended_witness :
    ((tiktokExtractorArgs ∈ buildCommonArgs
        (cleanInstagramUrl "https://www.tiktok.com/@a/video/1")) ↔
      detectPlatform "https://www.tiktok.com/@a/video/1" = Platform.tiktok) ∧
    (("--referer" ∈ buildCommonArgs
        (cleanInstagramUrl "https://www.tiktok.com/@a/video/1")) ↔
      detectPlatform "https://www.tiktok.com/@a/video/1" = Platform.instagram) ∧
    (∀ r, (downloadVideoAndExtractAudio "https://www.tiktok.com/@a/video/1" envC1).result
        = Except.ok r →
      r.platform = detectPlatform "https://www.tiktok.com/@a/video/1") :=
  C9_platform_reuse_amended "https://www.tiktok.com/@a/video/1" envC1
    (by decide) (by decide) (by decide)

/-- The descending-bitrate comparator is transitive. -/
theorem abrGeB_trans : ∀ a b c : FormatEntry, abrGeB a b → abrGeB b c → abrGeB a c := by
  intro a b c hab hbc
  simp only [abrGeB, decide_eq_true_eq] at *
  exact le_trans hbc hab

/-- The descending-bitrate comparator is total. -/
theorem abrGeB_total : ∀ a b : FormatEntry, abrGeB a b || abrGeB b a := by
  intro a b
  simp only [abrGeB, Bool.or_eq_true, decide_eq_true_eq]
  exact le_total (abrValue b) (abrValue a)

/-- A list with no first maximum is empty. -/
theorem firstMaxByAbr_eq_none {l : List FormatEntry} (h : firstMaxByAbr l = none) :
    l = [] := by
  cases l with
  | nil => rfl
  | cons a t =>
    cases hfm : firstMaxByAbr t <;> simp [firstMaxByAbr, hfm] at h
    split at h <;> simp_all

/-- The head of the stable descending-bitrate sort is the first entry of
the original list attaining the maximal bitrate. -/
theorem head_mergeSort_abrGeB : ∀ l : List FormatEntry,
    (l.mergeSort abrGeB).head? = firstMaxByAbr l := by
  intro l
  induction l with
  | nil => simp [firstMaxByAbr]
  | cons a l ih =>
    obtain ⟨l₁, l₂, h1, h2, h3⟩ := List.mergeSort_cons abrGeB_trans abrGeB_total a l
    cases l₁ with
    | nil =>
      simp only [List.nil_append] at h1 h2
      rw [h1]
      cases hfm : firstMaxByAbr l with
      | none => simp [firstMaxByAbr, hfm]
      | some g =>
        have hl2 : l₂.head? = some g := by rw [← h2, ih]; exact hfm
        cases l₂ with
        | nil => simp at hl2
        | cons g' t =>
          have hg : g' = g := by simpa using hl2
          have hs := List.sorted_mergeSort abrGeB_trans abrGeB_total (a :: l)
          rw [h1] at hs
          have hag : abrGeB a g' := (List.pairwise_cons.mp hs).1 g' (by simp)
          have hga : abrValue g ≤ abrValue a := by
            rw [← hg]
            simpa [abrGeB, decide_eq_true_eq] using hag
          simp [firstMaxByAbr, hfm, if_neg (not_lt.mpr hga)]
    | cons b l₁' =>
      rw [h1]
      have hfml : firstMaxByAbr l = some b := by
        rw [← ih, h2]
        simp
      have hb : abrGeB a b = false := by
        simpa using h3 b (by simp)
      have hlt : abrValue a < abrValue b := by
        have : ¬(abrValue b ≤ abrValue a) := by
          simpa [abrGeB, decide_eq_true_eq] using hb
        omega
      simp [firstMaxByAbr, hfml, if_pos hlt]

/-- The first maximum decomposes its list: everything before it has a
strictly smaller bitrate, and nothing in the list has a larger one. -/
theorem firstMaxByAbr_spec : ∀ (l : List FormatEntry) (f : FormatEntry),
    firstMaxByAbr l = some f →
    ∃ l₁ l₂, l = l₁ ++ f :: l₂ ∧ (∀ g ∈ l₁, abrValue g < abrValue f) ∧
      ∀ g ∈ l, abrValue g ≤ abrValue f := by
  intro l
  induction l with
  | nil => intro f h; simp [firstMaxByAbr] at h
  | cons a t ih =>
    intro f h
    cases hfm : firstMaxByAbr t with
    | none =>
      have ht : t = [] := firstMaxByAbr_eq_none hfm
      subst ht
      simp [firstMaxByAbr] at h
      subst h
      exact ⟨[], [], rfl, by simp, by simp⟩
    | some g =>
      simp only [firstMaxByAbr, hfm] at h
      by_cases hlt : abrValue a < abrValue g
      · rw [if_pos hlt] at h
        have hgf : g = f := Option.some.inj h
        subst hgf
        obtain ⟨l₁, l₂, hdec, hor, hall⟩ := ih g hfm
        refine ⟨a :: l₁, l₂, by simp [hdec], ?_, ?_⟩
        · intro x hx
          rcases List.mem_cons.mp hx with rfl | hx
          · exact hlt
          · exact hor x hx
        · intro x hx
          rcases List.mem_cons.mp hx with rfl | hx
          · exact le_of_lt hlt
          · exact hall x hx
      · rw [if_neg hlt] at h
        have haf : a = f := Option.some.inj h
        subst haf
        obtain ⟨l₁, l₂, hdec, hor, hall⟩ := ih g hfm
        refine ⟨[], t, rfl, by simp, ?_⟩
        intro x hx
        rcases List.mem_cons.mp hx with rfl | hx
        · exact le_refl _
        · exact le_trans (hall x hx) (not_lt.mp hlt)

/-- The formats-based audio URL is the `url` field of the first maximal-
bitrate audio-only entry. -/
theorem formatsAudioUrl_eq_firstMax (m : Metadata) (fs : List FormatEntry)
    (hf : m.formats = some fs) :
    formatsAudioUrl (some m)
      = (firstMaxByAbr (fs.filter audioOnlyKeep)).bind FormatEntry.url := by
  have hh := head_mergeSort_abrGeB (fs.filter audioOnlyKeep)
  simp only [formatsAudioUrl, Option.some_bind, hf]
  cases hms : (fs.filter audioOnlyKeep).mergeSort abrGeB with
  | nil =>
    rw [hms] at hh
    simp only [List.head?_nil] at hh
    rw [← hh]
    rfl
  | cons f t =>
    rw [hms] at hh
    simp only [List.head?_cons] at hh
    rw [← hh]
    rfl

/-- C5: when the parsed metadata has a formats list with at least one entry
passing the audio-only filter (a declared audio codec and a "none" video
codec), the selected audio URL is the `url` of the entry with the highest
bitrate, ties resolved in favour of the earliest entry of the original
list. -/
theorem C5_highest_bitrate_first_tie (m : Metadata) (fs : List FormatEntry)
    (hf : m.formats = some fs)
    (hne : fs.filter audioOnlyKeep ≠ []) :
    ∃ f l₁ l₂, fs.filter audioOnlyKeep = l₁ ++ f :: l₂ ∧
      (∀ g ∈ l₁, abrValue g < abrValue f) ∧
      (∀ g ∈ fs.filter audioOnlyKeep, abrValue g ≤ abrValue f) ∧
      formatsAudioUrl (some m) = f.url := by
  cases hfm : firstMaxByAbr (fs.filter audioOnlyKeep) with
  | none => exact absurd (firstMaxByAbr_eq_none hfm) hne
  | some f =>
    obtain ⟨l₁, l₂, hdec, hor, hall⟩ := firstMaxByAbr_spec _ f hfm
    refine ⟨f, l₁, l₂, hdec, hor, hall, ?_⟩
    rw [formatsAudioUrl_eq_firstMax m fs hf, hfm]
    rfl

theorem C5_highest_bitrate_first_tie_witness :
    formatsAudioUrl (some mC5) = some "https://cdn.example/a128" ∧
    (∃ f l₁ l₂, [fmt64, fmt128, fmt96].filter audioOnlyKeep = l₁ ++ f :: l₂ ∧
      (∀ g ∈ l₁, abrValue g < abrValue f) ∧
      (∀ g ∈ [fmt64, fmt128, fmt96].filter audioOnlyKeep, abrValue g ≤ abrValue f) ∧
      formatsAudioUrl (some mC5) = f.url) :=
  ⟨by rw [formatsAudioUrl_eq_firstMax mC5 [fmt64, fmt128, fmt96] rfl]; decide,
   C5_highest_bitrate_first_tie mC5 [fmt64, fmt128, fmt96] rfl (by decide)⟩
